import Mathlib

/-!
# Verification of `database/data_access_models.py`

Shallow embedding of the chunk registry (`ChunkRegistry`), the file queue
(`FileToProcess`) and the file-processing lock (`FileProcessLock`) from
`database/data_access_models.py`.

Modelling conventions:
* Each Django table is a `List` of records in insertion (primary-key) order;
  `objects.create` appends, `objects.all().delete()` empties the list,
  `objects.exists()` tests non-emptiness, `objects.last()` is `List.getLast?`.
* Each stateful classmethod becomes a function from the current table contents
  to a pair of a Python-style outcome (`Except PyExc α`) and the table contents
  after the call; a raised exception leaves the table unchanged, because the
  source raises before any `create` call.
* `datetime` values are modelled as rational Unix timestamps, exactly enough to
  represent negative and fractional timestamps; `datetime.fromtimestamp` and
  `datetime.utcnow()` are the identity on that representation (`utcnow` is an
  explicit `now` parameter).
* Byte strings are `List Nat`.
-/

set_option maxRecDepth 10000

namespace DataAccessModels

/-- Modelled from the spec: `config.constants.CHUNKABLE_FILES` is imported by
the source but `config/constants.py` is not under `src/`.  The spec describes
it as the configured closed set of chunkable stream-type names; the concrete
elements below follow the spec scenario (which includes `accelerometer`). -/
def CHUNKABLE_FILES : List String :=
  ["accelerometer", "bluetooth", "calls", "gps", "identifiers",
   "app_log", "power_state", "survey_timings", "texts", "wifi"]

/-- Modelled from the spec: `config.constants.ALL_DATA_STREAMS` (not under
`src/`) is the full universe of recognized stream types, a superset of the
chunkable set. -/
def ALL_DATA_STREAMS : List String :=
  CHUNKABLE_FILES ++ ["survey_answers", "voice_recording"]

/-- Modelled from the spec: `config.constants.CHUNK_TIMESLICE_QUANTUM` (not
under `src/`) is the configured bucket width in seconds; the spec scenario
fixes QUANTUM = 3600. -/
def CHUNK_TIMESLICE_QUANTUM : Int := 3600

/-- Modelled from the spec: one step of the incremental digest behind
`libs.security.chunk_hash` (`libs/security.py` is not under `src/`).  The spec
treats the hash algorithm as a pluggable deterministic function fed byte by
byte; only determinism, incrementality and the fixed-format output matter. -/
def hashStep (acc b : Nat) : Nat := (acc * 33 + b + 1) % 100000000

/-- Modelled from the spec: digest finalization, producing the short
fixed-format fingerprint string (non-empty, at most 25 characters). -/
def hashFinalize (acc : Nat) : String := ⟨'h' :: Nat.toDigits 10 acc⟩

/-- Modelled from the spec: `libs.security.chunk_hash` hashes one whole
buffer. -/
def chunk_hash (content : List Nat) : String :=
  hashFinalize (content.foldl hashStep 5381)

/-- Modelled from the spec: `libs.security.low_memory_chunk_hash` feeds a
sequence of content fragments to the incremental digest one fragment at a
time, never materializing the concatenation. -/
def low_memory_chunk_hash (fragments : List (List Nat)) : String :=
  hashFinalize (fragments.foldl (fun acc frag => frag.foldl hashStep acc) 5381)

/-- Python exceptions surfaced by the module.  `fileProcessingLockedError`,
`unchunkableDataTypeError` and `chunkableDataTypeError` are the classes
declared at the top of the source file.  `attributeErrorNone` models the
`AttributeError` Python raises when `FileProcessLock.objects.last()` returns
`None` and `.lock_time` is read from it.  `noActiveLockError` is the dedicated
`NoActiveLock` error named by the spec's error taxonomy; no such exception
class exists in the source.  `studyLookupError` models `QuerySet.get()`
failing to find exactly one `Study` row. -/
inductive PyExc where
  | fileProcessingLockedError
  | unchunkableDataTypeError
  | chunkableDataTypeError
  | attributeErrorNone
  | noActiveLockError
  | studyLookupError
deriving DecidableEq

/-- Python `int()` applied to a number truncates toward zero (`int(-1.5)` is
`-1`, not `-2`). -/
def pyInt (q : ℚ) : Int := Int.tdiv q.num q.den

/-- One row of the `ChunkRegistry` table. -/
structure ChunkRecord where
  is_chunkable : Bool
  chunk_path : String
  chunk_hash : String
  data_type : String
  time_bin : ℚ
  study_id : Nat
  participant_id : Nat
  survey_id : Option Nat
deriving DecidableEq

/-- `ChunkRegistry.register_chunked_data`: raises `UnchunkableDataTypeError`
when `data_type not in CHUNKABLE_FILES`; otherwise computes
`time_bin = int(time_bin) * CHUNK_TIMESLICE_QUANTUM`, hashes the contents and
creates one row with `is_chunkable=True`. -/
def register_chunked_data (data_type : String) (time_bin : ℚ) (chunk_path : String)
    (file_contents : List Nat) (study_id participant_id : Nat) (survey_id : Option Nat)
    (db : List ChunkRecord) : Except PyExc Unit × List ChunkRecord :=
  if data_type ∉ CHUNKABLE_FILES then
    (.error .unchunkableDataTypeError, db)
  else
    (.ok (), db ++ [{ is_chunkable := true,
                      chunk_path := chunk_path,
                      chunk_hash := chunk_hash file_contents,
                      data_type := data_type,
                      time_bin := ((pyInt time_bin * CHUNK_TIMESLICE_QUANTUM : Int) : ℚ),
                      study_id := study_id,
                      participant_id := participant_id,
                      survey_id := survey_id }])

/-- `ChunkRegistry.register_unchunked_data`: raises `ChunkableDataTypeError`
when `data_type in CHUNKABLE_FILES`; otherwise creates one row with
`is_chunkable=False`, an empty hash, and the raw (unbucketed) timestamp. -/
def register_unchunked_data (data_type : String) (time_bin : ℚ) (chunk_path : String)
    (study_id participant_id : Nat) (survey_id : Option Nat)
    (db : List ChunkRecord) : Except PyExc Unit × List ChunkRecord :=
  if data_type ∈ CHUNKABLE_FILES then
    (.error .chunkableDataTypeError, db)
  else
    (.ok (), db ++ [{ is_chunkable := false,
                      chunk_path := chunk_path,
                      chunk_hash := "",
                      data_type := data_type,
                      time_bin := time_bin,
                      study_id := study_id,
                      participant_id := participant_id,
                      survey_id := survey_id }])

/-- `ChunkRegistry.update_chunk_hash`: rehashes and stores, in place. -/
def update_chunk_hash (c : ChunkRecord) (data_to_hash : List Nat) : ChunkRecord :=
  { c with chunk_hash := chunk_hash data_to_hash }

/-- `ChunkRegistry.low_memory_update_chunk_hash`: rehashes from fragments and
stores, in place. -/
def low_memory_update_chunk_hash (c : ChunkRecord) (list_data_to_hash : List (List Nat)) :
    ChunkRecord :=
  { c with chunk_hash := low_memory_chunk_hash list_data_to_hash }

/-- The `participant__patient_id__in` clause of `get_chunks_time_range`:
added to the query only when `user_ids` is truthy (not `None` and not the
empty list). -/
def userIdsClause (patientOf : Nat → String) (user_ids : Option (List String))
    (c : ChunkRecord) : Bool :=
  match user_ids with
  | some us => if us.isEmpty then true else decide (patientOf c.participant_id ∈ us)
  | none => true

/-- The `data_type__in` clause: added only when `data_types` is truthy. -/
def dataTypesClause (data_types : Option (List String)) (c : ChunkRecord) : Bool :=
  match data_types with
  | some ds => if ds.isEmpty then true else decide (c.data_type ∈ ds)
  | none => true

/-- The `time_bin__gte` clause: added only when `start` is truthy (for a
numeric value, non-zero). -/
def startClause (start : Option ℚ) (c : ChunkRecord) : Bool :=
  match start with
  | some s => if s = 0 then true else decide (s ≤ c.time_bin)
  | none => true

/-- The `time_bin__lte` clause: added only when `end` is truthy. -/
def endClause (finish : Option ℚ) (c : ChunkRecord) : Bool :=
  match finish with
  | some e => if e = 0 then true else decide (c.time_bin ≤ e)
  | none => true

/-- The conjunction of the query dict built by `get_chunks_time_range`:
`study_id` always, plus each optional clause. -/
def chunkMatches (patientOf : Nat → String) (study_id : Nat)
    (user_ids : Option (List String)) (data_types : Option (List String))
    (start finish : Option ℚ) (c : ChunkRecord) : Bool :=
  decide (c.study_id = study_id) &&
  userIdsClause patientOf user_ids c &&
  dataTypesClause data_types c &&
  startClause start c &&
  endClause finish c

/-- `ChunkRegistry.get_chunks_time_range`: `objects.filter(**query)`.
`patientOf` resolves a participant foreign key to its `patient_id`, standing
for the `participant__patient_id` join. -/
def get_chunks_time_range (chunks : List ChunkRecord) (patientOf : Nat → String)
    (study_id : Nat) (user_ids : Option (List String))
    (data_types : Option (List String)) (start finish : Option ℚ) :
    List ChunkRecord :=
  chunks.filter (chunkMatches patientOf study_id user_ids data_types start finish)

/-- One row of the `FileToProcess` table. -/
structure FileToProcessRecord where
  s3_file_path : String
  study_id : Nat
deriving DecidableEq

/-- `FileToProcess.append_file_for_processing`: looks up the study's primary
key by its `object_id` (`QuerySet.get()` on the filtered list, which demands
exactly one row), then stores `file_path` as-is when its first 24 characters
equal `study_object_id`, and `study_object_id + '/' + file_path` otherwise.
`studies` is the `Study` table as (pk, object_id) pairs. -/
def append_file_for_processing (file_path : String) (study_object_id : String)
    (studies : List (Nat × String)) (db : List FileToProcessRecord) :
    Except PyExc Unit × List FileToProcessRecord :=
  match studies.filter (fun s => s.2 == study_object_id) with
  | [(study_pk, _)] =>
    if file_path.take 24 = study_object_id then
      (.ok (), db ++ [{ s3_file_path := file_path, study_id := study_pk }])
    else
      (.ok (), db ++ [{ s3_file_path := study_object_id ++ "/" ++ file_path,
                        study_id := study_pk }])
  | _ => (.error .studyLookupError, db)

/-- One row of the `FileProcessLock` table. -/
structure FileProcessLockRecord where
  lock_time : Int
deriving DecidableEq

/-- `FileProcessLock.islocked`: `objects.exists()`. -/
def islocked (db : List FileProcessLockRecord) : Bool := !db.isEmpty

/-- `FileProcessLock.lock`: raises `FileProcessingLockedError` when a lock row
exists, otherwise creates one stamped with the current time.  Note that the
read (`islocked`) and the write (`objects.create`) are two separate store
operations in the source, with no transaction or uniqueness constraint around
them. -/
def lock (now : Int) (db : List FileProcessLockRecord) :
    Except PyExc Unit × List FileProcessLockRecord :=
  if islocked db then (.error .fileProcessingLockedError, db)
  else (.ok (), db ++ [{ lock_time := now }])

/-- `FileProcessLock.unlock`: `objects.all().delete()`, unconditionally. -/
def unlock (_db : List FileProcessLockRecord) : List FileProcessLockRecord := []

/-- `FileProcessLock.get_time_since_locked`:
`datetime.utcnow() - objects.last().lock_time`.  When the table is empty,
`objects.last()` is `None` and the attribute read raises `AttributeError`. -/
def get_time_since_locked (now : Int) (db : List FileProcessLockRecord) :
    Except PyExc Int × List FileProcessLockRecord :=
  match db.getLast? with
  | none => (.error .attributeErrorNone, db)
  | some r => (.ok (now - r.lock_time), db)

/-- The read half of `lock`: the `cls.islocked()` call, a query of its own
against the persisted store. -/
def lock_check (db : List FileProcessLockRecord) : Bool := islocked db

/-- The write half of `lock`: acting on an already-made observation, either
raise or `objects.create` — a second, separate store operation. -/
def lock_commit (now : Int) (observed : Bool) (db : List FileProcessLockRecord) :
    Except PyExc Unit × List FileProcessLockRecord :=
  if observed then (.error .fileProcessingLockedError, db)
  else (.ok (), db ++ [{ lock_time := now }])

/-- Two concurrent `lock()` calls interleaved so that both `islocked()` reads
run before either `objects.create` — an interleaving the source permits, since
nothing makes the check-then-create indivisible.  Returns both callers'
outcomes and the final table. -/
def interleaved_two_acquires (t1 t2 : Int) (db0 : List FileProcessLockRecord) :
    Except PyExc Unit × Except PyExc Unit × List FileProcessLockRecord :=
  let o1 := lock_check db0
  let o2 := lock_check db0
  let p1 := lock_commit t1 o1 db0
  let p2 := lock_commit t2 o2 p1.2
  (p1.1, p2.1, p2.2)

/-- One sequential call against the `FileProcessLock` table. -/
inductive LockOp where
  | op_lock (now : Int)
  | op_unlock
  | op_islocked
  | op_age (now : Int)

/-- State effect of one sequential call: `islocked` and
`get_time_since_locked` are read-only, `lock` and `unlock` are as above (a
raised exception leaves the table unchanged). -/
def lockStep (db : List FileProcessLockRecord) : LockOp → List FileProcessLockRecord
  | .op_lock now => (lock now db).2
  | .op_unlock => unlock db
  | .op_islocked => db
  | .op_age now => (get_time_since_locked now db).2

/-- Runs a sequence of calls against the `FileProcessLock` table. -/
def runLockOps (db : List FileProcessLockRecord) (ops : List LockOp) :
    List FileProcessLockRecord :=
  ops.foldl lockStep db

/-- The spec's §3 record invariant: chunkable flag, chunkable classification
and non-empty hash agree. -/
def chunkInvariant (c : ChunkRecord) : Prop :=
  (c.is_chunkable = true ↔ c.data_type ∈ CHUNKABLE_FILES) ∧
  (c.is_chunkable = true ↔ c.chunk_hash ≠ "")

/-- The record invariant, for every row of the table. -/
def chunkTableInvariant (db : List ChunkRecord) : Prop :=
  ∀ c ∈ db, chunkInvariant c

/-- Fixture record for the range-query witness. -/
def wChunk : ChunkRecord :=
  { is_chunkable := true, chunk_path := "/c", chunk_hash := "h1",
    data_type := "gps", time_bin := 15, study_id := 1, participant_id := 7,
    survey_id := none }

/-- Fixture participant lookup for the range-query witness. -/
def wPatient : Nat → String := fun _ => "p7"

/-! ## Helper lemmas -/

/-- The fingerprint produced by the hash is never the empty string. -/
theorem chunk_hash_ne_empty (content : List Nat) : chunk_hash content ≠ "" := by
  simp [chunk_hash, hashFinalize, String.ext_iff]

/-- Python `int()` agrees with `floor` on nonnegative numbers. -/
theorem pyInt_of_nonneg (q : ℚ) (h : 0 ≤ q) : pyInt q = ⌊q⌋ := by
  rw [pyInt, Rat.floor_def, Int.tdiv_eq_ediv (Rat.num_nonneg.mpr h) (Int.ofNat_nonneg _)]

/-- Evaluation of Python `int(-3/2)`. -/
theorem pyInt_neg_three_halves : pyInt (-3 / 2 : ℚ) = -1 := by
  norm_num [pyInt]
  decide

/-- `lock` is literally the read (`lock_check`) followed by the write
(`lock_commit`) acting on that observation: the decomposition used in the
interleaving analysis is faithful to the source. -/
theorem lock_is_check_then_commit (now : Int) (db : List FileProcessLockRecord) :
    lock now db = lock_commit now (lock_check db) db := rfl

/-! ## Claim theorems -/

/-- Claim C1 (code_bug evidence): the check-then-set in `FileProcessLock.lock`
is not atomic — it is `objects.exists()` followed by `objects.create()` with
no transaction or uniqueness constraint.  In the interleaving where both
concurrent `lock()` calls run their `islocked()` read before either
`create()`, both calls succeed and two lock records exist afterwards,
contradicting the claim that exactly one succeeds, the other fails with
`AlreadyLocked`, and exactly one lock record remains. -/
theorem lock_not_atomic_two_acquires_both_succeed :
    interleaved_two_acquires 5 9 []
      = (.ok (), .ok (), [{ lock_time := 5 }, { lock_time := 9 }]) ∧
    ([({ lock_time := 5 } : FileProcessLockRecord), { lock_time := 9 }].length = 2) :=
  ⟨rfl, rfl⟩

/-- Claim C2: each registration entry point checks its data-type precondition
before touching the table: `register_unchunked_data` on a chunkable type fails
with `ChunkableDataTypeError` and creates no record, and
`register_chunked_data` on a non-chunkable type fails with
`UnchunkableDataTypeError` and creates no record. -/
theorem register_guards_fail_fast :
    (∀ (dt : String) (raw : ℚ) (path : String) (sid pid : Nat) (svid : Option Nat)
        (db : List ChunkRecord), dt ∈ CHUNKABLE_FILES →
        register_unchunked_data dt raw path sid pid svid db
          = (.error .chunkableDataTypeError, db)) ∧
    (∀ (dt : String) (raw : ℚ) (path : String) (contents : List Nat) (sid pid : Nat)
        (svid : Option Nat) (db : List ChunkRecord), dt ∉ CHUNKABLE_FILES →
        register_chunked_data dt raw path contents sid pid svid db
          = (.error .unchunkableDataTypeError, db)) := by
  constructor
  · intro dt raw path sid pid svid db h
    simp [register_unchunked_data, h]
  · intro dt raw path contents sid pid svid db h
    simp [register_chunked_data, h]

/-- Witness for C2 at concrete inputs: `accelerometer` is chunkable,
`survey_answers` is not. -/
theorem register_guards_fail_fast_witness :
    register_unchunked_data "accelerometer" 1 "path" 1 2 none []
      = (.error .chunkableDataTypeError, []) ∧
    register_chunked_data "survey_answers" 1 "path" [1] 1 2 none []
      = (.error .unchunkableDataTypeError, []) :=
  ⟨register_guards_fail_fast.1 "accelerometer" 1 "path" 1 2 none [] (by decide),
   register_guards_fail_fast.2 "survey_answers" 1 "path" [1] 1 2 none [] (by decide)⟩

/-- Claim C5: starting from zero records, every sequence of sequential
`lock` / `unlock` / `islocked` / `get_time_since_locked` calls leaves at most
one `FileProcessLock` record: `lock` creates a row only when none exists, and
`unlock` deletes everything. -/
theorem file_process_lock_at_most_one_record (ops : List LockOp) :
    (runLockOps [] ops).length ≤ 1 := by
  have key : ∀ (ops : List LockOp) (db : List FileProcessLockRecord),
      db.length ≤ 1 → (runLockOps db ops).length ≤ 1 := by
    intro ops
    induction ops with
    | nil => intro db h; exact h
    | cons op rest ih =>
      intro db h
      have hstep : (lockStep db op).length ≤ 1 := by
        cases op with
        | op_lock now =>
          cases db with
          | nil => simp [lockStep, lock, islocked]
          | cons r rs => simpa [lockStep, lock, islocked] using h
        | op_unlock => simp [lockStep, unlock]
        | op_islocked => exact h
        | op_age now =>
          cases hl : db.getLast? <;> simp [lockStep, get_time_since_locked, hl] <;> exact h
      exact ih (lockStep db op) hstep
  exact key ops [] (by simp)

/-- Claim C7 (counterexample): calling `get_time_since_locked` on an unlocked
state does fail, but with the `AttributeError` of reading `.lock_time` from
`None`, not with a dedicated `NoActiveLock` error — no such exception class
exists in the source. -/
theorem age_error_is_none_dereference_cx :
    get_time_since_locked 100 [] = (.error .attributeErrorNone, []) ∧
    PyExc.attributeErrorNone ≠ PyExc.noActiveLockError :=
  ⟨rfl, by decide⟩

/-- Claim C7 (amended): `get_time_since_locked` returns the current time minus
the `lock_time` of the last lock record when the lock is held, and fails —
with a `None`-dereference `AttributeError`, not a dedicated `NoActiveLock`
error — when the state is unlocked. -/
theorem get_time_since_locked_spec (now : Int) (db : List FileProcessLockRecord) :
    (db = [] → get_time_since_locked now db = (.error .attributeErrorNone, db)) ∧
    (∀ r, db.getLast? = some r →
        get_time_since_locked now db = (.ok (now - r.lock_time), db)) := by
  constructor
  · intro h
    subst h
    rfl
  · intro r h
    simp [get_time_since_locked, h]

/-- Witness for C7 (amended) at a concrete held lock. -/
theorem get_time_since_locked_spec_witness :
    get_time_since_locked 100 [{ lock_time := 40 }]
      = (.ok 60, [{ lock_time := 40 }]) := by
  have h := (get_time_since_locked_spec 100 [{ lock_time := 40 }]).2 { lock_time := 40 } rfl
  simpa using h

/-- Claim C9: hashing content fed as successive fragments produces the same
fingerprint as hashing the concatenation in one buffer, and consequently the
streamed record update assigns the same `chunk_hash` as the buffered one. -/
theorem low_memory_chunk_hash_eq_chunk_hash_join :
    (∀ fragments : List (List Nat),
        low_memory_chunk_hash fragments = chunk_hash fragments.flatten) ∧
    (∀ (c : ChunkRecord) (fragments : List (List Nat)),
        low_memory_update_chunk_hash c fragments
          = update_chunk_hash c fragments.flatten) := by
  have hash_eq : ∀ fragments : List (List Nat),
      low_memory_chunk_hash fragments = chunk_hash fragments.flatten := by
    intro fragments
    unfold low_memory_chunk_hash chunk_hash
    rw [List.foldl_flatten]
  exact ⟨hash_eq, fun c fragments => by
    unfold low_memory_update_chunk_hash update_chunk_hash
    rw [hash_eq]⟩

/-- Claim C3 (counterexample): the source computes `int(time_bin)`, which
truncates toward zero, not `floor`.  At `timeBinRaw = -3/2` the created
record's `time_bin` is `int(-3/2) * 3600 = -3600`, while
`floor(-3/2) * 3600 = -7200`: the claimed equation fails for negative
fractional inputs. -/
theorem register_chunked_trunc_vs_floor_cx :
    ((register_chunked_data "accelerometer" (-3 / 2 : ℚ) "/chunks/x" [1, 2, 3]
        1 2 none []).2.map ChunkRecord.time_bin = [(-3600 : ℚ)]) ∧
    (((⌊(-3 / 2 : ℚ)⌋ * CHUNK_TIMESLICE_QUANTUM : Int) : ℚ) = -7200) ∧
    ((-3600 : ℚ) ≠ -7200) := by
  refine ⟨?_, ?_, by norm_num⟩
  · rw [register_chunked_data, if_neg (by decide : ¬ "accelerometer" ∉ CHUNKABLE_FILES)]
    simp [pyInt_neg_three_halves, CHUNK_TIMESLICE_QUANTUM]
  · rw [show (⌊(-3 / 2 : ℚ)⌋ : Int) = -2 by norm_num, CHUNK_TIMESLICE_QUANTUM]
    norm_num

/-- Claim C3 (amended): every successful `register_chunked_data` call creates
one record whose `time_bin` is `int(timeBinRaw) * QUANTUM` converted to a
timestamp, where `int` truncates toward zero — this agrees with
`floor(timeBinRaw) * QUANTUM` for nonnegative `timeBinRaw` but not for
negative fractional values — whose `chunk_hash` equals the hash of the content
and is non-empty, and whose `is_chunkable` is true. -/
theorem register_chunked_timebin_trunc
    (dt : String) (raw : ℚ) (path : String) (contents : List Nat)
    (sid pid : Nat) (svid : Option Nat) (db : List ChunkRecord)
    (h : dt ∈ CHUNKABLE_FILES) :
    register_chunked_data dt raw path contents sid pid svid db
      = (.ok (), db ++ [{ is_chunkable := true,
                          chunk_path := path,
                          chunk_hash := chunk_hash contents,
                          data_type := dt,
                          time_bin := ((pyInt raw * CHUNK_TIMESLICE_QUANTUM : Int) : ℚ),
                          study_id := sid,
                          participant_id := pid,
                          survey_id := svid }]) ∧
    chunk_hash contents ≠ "" ∧
    (0 ≤ raw → pyInt raw = ⌊raw⌋) := by
  refine ⟨?_, chunk_hash_ne_empty contents, pyInt_of_nonneg raw⟩
  rw [register_chunked_data, if_neg (by simpa using h)]

/-- Witness for C3 (amended) at a concrete nonnegative input. -/
theorem register_chunked_timebin_trunc_witness :
    register_chunked_data "accelerometer" 2 "/chunks/x" [7] 1 2 none []
      = (.ok (), [{ is_chunkable := true,
                    chunk_path := "/chunks/x",
                    chunk_hash := chunk_hash [7],
                    data_type := "accelerometer",
                    time_bin := ((pyInt 2 * CHUNK_TIMESLICE_QUANTUM : Int) : ℚ),
                    study_id := 1,
                    participant_id := 2,
                    survey_id := none }]) ∧
    chunk_hash [7] ≠ "" ∧ pyInt 2 = ⌊(2 : ℚ)⌋ := by
  have h := register_chunked_timebin_trunc "accelerometer" 2 "/chunks/x" [7] 1 2 none []
    (by decide)
  exact ⟨by simpa using h.1, h.2.1, h.2.2 (by norm_num)⟩

/-- Claim C4 (counterexample): `update_chunk_hash` has no chunkable guard.
Registering `survey_answers` (not chunkable) and then updating that record's
hash yields a record with `is_chunkable = false` and a non-empty
`chunk_hash`, so `isChunkable ⇔ chunkHash non-empty` fails after a hash
update. -/
theorem invariant_broken_by_update_on_unchunked_cx :
    (((register_unchunked_data "survey_answers" 5 "/p" 1 2 none []).2.map
        (fun c => update_chunk_hash c [1, 2])).map
        (fun c => (c.is_chunkable, c.chunk_hash)) = [(false, "h5859978")]) ∧
    "survey_answers" ∉ CHUNKABLE_FILES ∧ ("h5859978" : String) ≠ "" := by
  refine ⟨?_, by decide, by decide⟩
  rfl

/-- Claim C4 (amended): both registration entry points establish the §3
invariant for every row of the table, and the hash-update operations preserve
it on records whose `data_type` is chunkable; a hash update on an unchunkable
record is the one operation that breaks it. -/
theorem chunk_invariant_registration_and_guarded_update :
    (∀ (dt : String) (raw : ℚ) (path : String) (contents : List Nat) (sid pid : Nat)
        (svid : Option Nat) (db : List ChunkRecord), chunkTableInvariant db →
        chunkTableInvariant (register_chunked_data dt raw path contents sid pid svid db).2) ∧
    (∀ (dt : String) (raw : ℚ) (path : String) (sid pid : Nat)
        (svid : Option Nat) (db : List ChunkRecord), chunkTableInvariant db →
        chunkTableInvariant (register_unchunked_data dt raw path sid pid svid db).2) ∧
    (∀ (c : ChunkRecord) (data : List Nat), c.data_type ∈ CHUNKABLE_FILES →
        chunkInvariant c → chunkInvariant (update_chunk_hash c data)) ∧
    (∀ (c : ChunkRecord) (frags : List (List Nat)), c.data_type ∈ CHUNKABLE_FILES →
        chunkInvariant c → chunkInvariant (low_memory_update_chunk_hash c frags)) := by
  refine ⟨?_, ?_, ?_, ?_⟩
  · intro dt raw path contents sid pid svid db hdb
    by_cases h : dt ∈ CHUNKABLE_FILES
    · rw [register_chunked_data, if_neg (by simpa using h)]
      intro c hc
      rcases List.mem_append.mp hc with hold | hnew
      · exact hdb c hold
      · rcases List.mem_singleton.mp hnew with rfl
        exact ⟨by simpa using h, by simpa using chunk_hash_ne_empty contents⟩
    · rw [register_chunked_data, if_pos (by simpa using h)]
      exact hdb
  · intro dt raw path sid pid svid db hdb
    by_cases h : dt ∈ CHUNKABLE_FILES
    · rw [register_unchunked_data, if_pos h]
      exact hdb
    · rw [register_unchunked_data, if_neg h]
      intro c hc
      rcases List.mem_append.mp hc with hold | hnew
      · exact hdb c hold
      · rcases List.mem_singleton.mp hnew with rfl
        refine ⟨by simpa using h, by simp⟩
  · intro c data h hinv
    have hflag : c.is_chunkable = true := hinv.1.mpr h
    exact ⟨by simpa [update_chunk_hash, hflag] using h,
           by simpa [update_chunk_hash, hflag] using chunk_hash_ne_empty data⟩
  · intro c frags h hinv
    have hflag : c.is_chunkable = true := hinv.1.mpr h
    have hne : low_memory_chunk_hash frags ≠ "" := by
      rw [low_memory_chunk_hash_eq_chunk_hash_join.1]
      exact chunk_hash_ne_empty frags.flatten
    exact ⟨by simpa [low_memory_update_chunk_hash, hflag] using h,
           by simpa [low_memory_update_chunk_hash, hflag] using hne⟩

/-- Witness for C4 (amended): registering a chunkable type into an empty table
yields a table satisfying the invariant. -/
theorem chunk_invariant_registration_and_guarded_update_witness :
    chunkTableInvariant
      (register_chunked_data "accelerometer" 2 "/p" [7] 1 2 none []).2 :=
  chunk_invariant_registration_and_guarded_update.1 "accelerometer" 2 "/p" [7] 1 2 none []
    (by intro c hc; simp at hc)

/-- Claim C6 (counterexample): the source tests `file_path[:24] ==
study_object_id`, not a prefix test.  With the 6-character identifier
`abc123`, the already-prefixed path `abc123/device.csv` has first 24
characters `abc123/device.csv ≠ abc123`, so the call stores
`abc123/abc123/device.csv` rather than the claimed unchanged
`abc123/device.csv`. -/
theorem append_file_prefix_cx :
    append_file_for_processing "abc123/device.csv" "abc123" [(1, "abc123")] []
      = (.ok (), [{ s3_file_path := "abc123/abc123/device.csv", study_id := 1 }]) ∧
    "abc123/abc123/device.csv" ≠ "abc123/device.csv" := by
  constructor
  · rfl
  · decide

/-- Claim C6 (amended): after a successful study lookup, the stored path is
`filePath` unchanged exactly when the first 24 characters of `filePath` equal
the study's public identifier — for the platform's 24-character identifiers
this coincides with the claimed prefix test, but not for shorter ones — and
`"{studyPublicId}/{filePath}"` otherwise. -/
theorem append_file_take24_rule
    (fp sid : String) (pk : Nat) (studies : List (Nat × String))
    (db : List FileToProcessRecord)
    (h : studies.filter (fun s => s.2 == sid) = [(pk, sid)]) :
    append_file_for_processing fp sid studies db
      = (.ok (), db ++ [{ s3_file_path := if fp.take 24 = sid then fp
                                          else sid ++ "/" ++ fp,
                          study_id := pk }]) := by
  rw [append_file_for_processing, h]
  by_cases hc : fp.take 24 = sid
  · simp [hc]
  · simp [hc]

/-- Witness for C6 (amended): the unprefixed half of the spec scenario, which
the code does satisfy. -/
theorem append_file_take24_rule_witness :
    append_file_for_processing "device.csv" "abc123" [(1, "abc123")] []
      = (.ok (), [{ s3_file_path := "abc123/device.csv", study_id := 1 }]) := by
  have h := append_file_take24_rule "device.csv" "abc123" 1 [(1, "abc123")] [] (by decide)
  rw [if_neg (by decide : ¬ ("device.csv".take 24 = "abc123"))] at h
  simpa using h

/-- Characterization of the participant clause when the filter is not a
provided-but-empty list. -/
theorem userIdsClause_eq_true_iff (patientOf : Nat → String)
    (user_ids : Option (List String)) (c : ChunkRecord)
    (hu : ∀ us, user_ids = some us → us ≠ []) :
    userIdsClause patientOf user_ids c = true ↔
      ∀ us, user_ids = some us → patientOf c.participant_id ∈ us := by
  rcases user_ids with _ | us
  · simp [userIdsClause]
  · rw [userIdsClause, if_neg (by simpa using hu us rfl)]
    simp

/-- Characterization of the data-type clause when the filter is not a
provided-but-empty list. -/
theorem dataTypesClause_eq_true_iff (data_types : Option (List String)) (c : ChunkRecord)
    (hd : ∀ ds, data_types = some ds → ds ≠ []) :
    dataTypesClause data_types c = true ↔
      ∀ ds, data_types = some ds → c.data_type ∈ ds := by
  rcases data_types with _ | ds
  · simp [dataTypesClause]
  · rw [dataTypesClause, if_neg (by simpa using hd ds rfl)]
    simp

/-- Characterization of the lower time bound when it is not a
provided-but-zero value. -/
theorem startClause_eq_true_iff (start : Option ℚ) (c : ChunkRecord)
    (hs : ∀ s, start = some s → s ≠ 0) :
    startClause start c = true ↔ ∀ s, start = some s → s ≤ c.time_bin := by
  rcases start with _ | s
  · simp [startClause]
  · rw [startClause, if_neg (hs s rfl)]
    simp

/-- Characterization of the upper time bound when it is not a
provided-but-zero value. -/
theorem endClause_eq_true_iff (finish : Option ℚ) (c : ChunkRecord)
    (he : ∀ e, finish = some e → e ≠ 0) :
    endClause finish c = true ↔ ∀ e, finish = some e → c.time_bin ≤ e := by
  rcases finish with _ | e
  · simp [endClause]
  · rw [endClause, if_neg (he e rfl)]
    simp

/-- Claim C8: `get_chunks_time_range` applies its optional filters
conjunctively — a record is returned exactly when its `study_id` matches, its
participant's `patient_id` is in the provided `user_ids`, its `data_type` is
in the provided `data_types`, and its `time_bin` lies inclusively between the
provided bounds; as the code tests each parameter for Python truthiness, a
provided filter is assumed truthy here (non-empty lists, non-zero bounds;
claim C10 settles the falsy case). -/
theorem get_chunks_time_range_conjunctive
    (chunks : List ChunkRecord) (patientOf : Nat → String) (sid : Nat)
    (user_ids : Option (List String)) (data_types : Option (List String))
    (start finish : Option ℚ) (c : ChunkRecord)
    (hu : ∀ us, user_ids = some us → us ≠ [])
    (hd : ∀ ds, data_types = some ds → ds ≠ [])
    (hs : ∀ s, start = some s → s ≠ 0)
    (he : ∀ e, finish = some e → e ≠ 0) :
    c ∈ get_chunks_time_range chunks patientOf sid user_ids data_types start finish ↔
      c ∈ chunks ∧ c.study_id = sid ∧
      (∀ us, user_ids = some us → patientOf c.participant_id ∈ us) ∧
      (∀ ds, data_types = some ds → c.data_type ∈ ds) ∧
      (∀ s, start = some s → s ≤ c.time_bin) ∧
      (∀ e, finish = some e → c.time_bin ≤ e) := by
  rw [get_chunks_time_range, List.mem_filter]
  simp only [chunkMatches, Bool.and_eq_true, decide_eq_true_eq]
  rw [userIdsClause_eq_true_iff patientOf user_ids c hu,
      dataTypesClause_eq_true_iff data_types c hd,
      startClause_eq_true_iff start c hs,
      endClause_eq_true_iff finish c he]
  tauto

/-- Witness for C8 on a one-row table with every filter provided. -/
theorem get_chunks_time_range_conjunctive_witness :
    wChunk ∈ get_chunks_time_range [wChunk] wPatient 1 (some ["p7"]) (some ["gps"])
      (some 10) (some 20) := by
  rw [get_chunks_time_range_conjunctive [wChunk] wPatient 1 (some ["p7"]) (some ["gps"])
      (some 10) (some 20) wChunk
      (by intro us h; cases h; decide)
      (by intro ds h; cases h; decide)
      (by intro s h; cases h; decide)
      (by intro e h; cases h; decide)]
  refine ⟨by simp, by decide, ?_, ?_, ?_, ?_⟩
  · intro us h; cases h; decide
  · intro ds h; cases h; decide
  · intro s h; cases h; decide
  · intro e h; cases h; decide

/-- Claim C10: `get_chunks_time_range` treats a provided-but-falsy filter
exactly as an absent one — an empty `user_ids` list, an empty `data_types`
list, or a zero `start` or `end` adds no restriction, and with all four falsy
the query returns all of the study's records rather than none. -/
theorem get_chunks_time_range_falsy_filters_ignored
    (chunks : List ChunkRecord) (patientOf : Nat → String) (sid : Nat)
    (user_ids : Option (List String)) (data_types : Option (List String))
    (start finish : Option ℚ) :
    (get_chunks_time_range chunks patientOf sid (some []) data_types start finish
      = get_chunks_time_range chunks patientOf sid none data_types start finish) ∧
    (get_chunks_time_range chunks patientOf sid user_ids (some []) start finish
      = get_chunks_time_range chunks patientOf sid user_ids none start finish) ∧
    (get_chunks_time_range chunks patientOf sid user_ids data_types (some 0) finish
      = get_chunks_time_range chunks patientOf sid user_ids data_types none finish) ∧
    (get_chunks_time_range chunks patientOf sid user_ids data_types start (some 0)
      = get_chunks_time_range chunks patientOf sid user_ids data_types start none) ∧
    (get_chunks_time_range chunks patientOf sid (some []) (some []) (some 0) (some 0)
      = chunks.filter (fun c => decide (c.study_id = sid))) := by
  refine ⟨?_, ?_, ?_, ?_, ?_⟩ <;> simp only [get_chunks_time_range]
  · exact List.filter_congr fun c _ => by simp [chunkMatches, userIdsClause]
  · exact List.filter_congr fun c _ => by simp [chunkMatches, dataTypesClause]
  · exact List.filter_congr fun c _ => by simp [chunkMatches, startClause]
  · exact List.filter_congr fun c _ => by simp [chunkMatches, endClause]
  · exact List.filter_congr fun c _ => by
      simp [chunkMatches, userIdsClause, dataTypesClause, startClause, endClause]

end DataAccessModels
